import Mathlib

/-! # `art::greenland::DexLang` (src/greenland/dex_lang.h)

A shallow embedding of the inline code of `dex_lang.h`: the shared module
`Context` with its two `volatile int32_t` counters, the Dalvik register
accessors `EmitLoadDalvikReg` / `EmitStoreDalvikReg` (both overloads) and the
fixed-arity intrinsic wrappers `EmitInvokeIntrinsic2` .. `EmitInvokeIntrinsic5`.

Conventions.
* `int32_t` values are integers kept in `[INT32_MIN, INT32_MAX]`; an `int32_t`
  operation is the mathematical one followed by `wrapInt32`.
* A C++ pointer is an `Option`: `none` is `NULL`.
* Functions that `dex_lang.h` only declares or calls (`GetJTypeFromShorty`,
  `DalvikReg::GetValue`, `DalvikReg::SetValue`, the `ArrayRef` form of
  `EmitInvokeIntrinsic`) are parameters of the code that calls them.
* Member functions whose bodies live in `dex_lang.cc` are modelled from the
  specification and are marked as such.
-/

namespace Greenland

/-! ## 32-bit signed arithmetic -/

/-- Smallest `int32_t`. -/
def INT32_MIN : Int := -2147483648

/-- Largest `int32_t`. -/
def INT32_MAX : Int := 2147483647

/-- Reduction of an integer to the `int32_t` that has the same low 32 bits. -/
def wrapInt32 (x : Int) : Int := (x + 2147483648) % 4294967296 - 2147483648

/-- The predicate "is a value of type `int32_t`". -/
def IsInt32 (x : Int) : Prop := INT32_MIN ≤ x ∧ x ≤ INT32_MAX

instance (x : Int) : Decidable (IsInt32 x) := by
  unfold IsInt32; exact inferInstance

/-- The C++ expression `a << n` on `int`. -/
def shlInt32 (a : Int) (n : Nat) : Int := wrapInt32 (a * 2 ^ n)

/-! ## `DexLang::Context` -/

/-- The fields of `class DexLang::Context` (lines 56-62). `module_` and
`intrinsic_helper_` are owning pointers (`none` once deleted); the by-value
`llvm::LLVMContext context_` carries no state used here and is left out. -/
structure Context where
  module_ : Option Nat
  intrinsic_helper_ : Option Nat
  ref_count_ : Int
  mem_usage_ : Int
deriving DecidableEq, Repr

namespace Context

/-- Member `Context::IsMemUsageThresholdReached` (lines 82-84):
`return (mem_usage_ > (30 << 20));`. -/
def IsMemUsageThresholdReached (self : Context) : Bool :=
  decide (self.mem_usage_ > shlInt32 30 20)

/-- Modelled from the spec: the body of `Context::AddMemUsageApproximation`
(declared at line 81, defined in `dex_lang.cc`). "`recordUsage(bytes)`
atomically adds to the usage counter": the `size_t` amount is added to the
`int32_t` field `mem_usage_`, the sum being kept in 32 bits. -/
def AddMemUsageApproximation (self : Context) (usage : Nat) : Context :=
  { self with mem_usage_ := wrapInt32 (self.mem_usage_ + (usage : Int)) }

/-- A context is live while it still owns its module and its intrinsic helper. -/
def isLive (self : Context) : Bool :=
  self.module_.isSome && self.intrinsic_helper_.isSome

/-- Modelled from the spec: the private destructor `Context::~Context`
(declared at line 64): it "destroys the module/intrinsic-library pair". -/
def destroy (self : Context) : Context :=
  { self with module_ := none, intrinsic_helper_ := none }

/-- Modelled from the spec: the body of `Context::IncRef` (declared at line 78):
"`acquire()` increments the reference count and returns a handle". The handle
returned is the context itself (`Context&`). -/
def IncRef (self : Context) : Context :=
  { self with ref_count_ := wrapInt32 (self.ref_count_ + 1) }

/-- Modelled from the spec: the body of `Context::DecRef` (declared at line 79):
"`release()` decrements it and destroys the module/intrinsic-library pair
exactly when the count transitions to zero". -/
def DecRef (self : Context) : Context :=
  let released : Context := { self with ref_count_ := wrapInt32 (self.ref_count_ - 1) }
  if released.ref_count_ = 0 then released.destroy else released

/-- One reference-counting call made on a context. -/
inductive RefCall where
  | incRef
  | decRef
deriving DecidableEq, Repr

/-- The effect of one reference-counting call. -/
def call (self : Context) : RefCall → Context
  | .incRef => self.IncRef
  | .decRef => self.DecRef

/-- A sequence of reference-counting calls, oldest first. A call made after
the context was destroyed (a use after free in C++) has no defined meaning;
here it can only leave the context destroyed. -/
def run (self : Context) (calls : List RefCall) : Context :=
  calls.foldl call self

/-- A sequence of recordings, oldest first. -/
def recordAll (self : Context) (usages : List Nat) : Context :=
  usages.foldl AddMemUsageApproximation self

end Context

/-! ## `DexLang`: the register helper functions -/

/-- The ways a call can end without returning. -/
inductive Fault where
  /-- Exception `std::out_of_range` thrown by `std::vector::at`. -/
  | outOfRange
  /-- A `DCHECK` failed and aborted. -/
  | checkFailed
  /-- Undefined behaviour: `operator[]` past the end of the vector, or a
  member call through a `NULL` pointer. -/
  | invalidAccess
  /-- The error `DuplicateRegisterAllocation` of the specification. -/
  | duplicateRegisterAllocation
deriving DecidableEq, Repr

/-- The part of a `DexLang` session the register helpers touch: the vector
`std::vector<DalvikReg*> regs_` (line 133) and `heap`, everything that lives
behind those pointers (the `DalvikReg` objects and the IR they emit into). -/
structure DexLang (RegPtr Heap : Type) where
  regs_ : List (Option RegPtr)
  heap : Heap

/-- What `dex_lang.h` uses without defining: the build flag behind `DCHECK`
(logging.h), `GetJTypeFromShorty` (backend_types.h), the member functions
`DalvikReg::GetValue` / `DalvikReg::SetValue` (dalvik_reg.h), and the
`ArrayRef` overload of `DexLang::EmitInvokeIntrinsic` (declared at lines
288-290, defined in `dex_lang.cc`). -/
structure Externals (RegPtr JType JTypeSpace Value Heap IntrinsicId : Type) where
  kEnableDChecks : Bool
  GetJTypeFromShorty : Char → JType
  GetValue : RegPtr → JType → JTypeSpace → Heap → Value × Heap
  SetValue : RegPtr → JType → JTypeSpace → Value → Heap → Heap
  EmitInvokeIntrinsic : Nat → IntrinsicId → List Value → DexLang RegPtr Heap →
    Except Fault (Value × DexLang RegPtr Heap)

namespace DexLang

section Helpers

variable {RegPtr JType JTypeSpace Value Heap IntrinsicId : Type}

/-- The statement `DCHECK(regs_.at(reg_idx) != NULL);` (lines 137 and 143).
With `DCHECK` compiled out the operand is not evaluated. -/
def dcheckAllocated (kEnableDChecks : Bool) (regs_ : List (Option RegPtr)) (reg_idx : Nat) :
    Except Fault Unit :=
  if kEnableDChecks then
    match regs_[reg_idx]? with
    | none => .error .outOfRange
    | some none => .error .checkFailed
    | some (some _) => .ok ()
  else .ok ()

/-- Member `DexLang::EmitLoadDalvikReg(unsigned, JType, JTypeSpace)` (lines 135-139). -/
def EmitLoadDalvikReg (ext : Externals RegPtr JType JTypeSpace Value Heap IntrinsicId)
    (self : DexLang RegPtr Heap) (reg_idx : Nat) (jty : JType) (space : JTypeSpace) :
    Except Fault (Value × DexLang RegPtr Heap) :=
  match dcheckAllocated ext.kEnableDChecks self.regs_ reg_idx with
  | .error e => .error e
  | .ok _ =>
    match self.regs_[reg_idx]? with
    | some (some reg) =>
      let r := ext.GetValue reg jty space self.heap
      .ok (r.1, { self with heap := r.2 })
    | _ => .error .invalidAccess

/-- Member `DexLang::EmitLoadDalvikReg(unsigned, char, JTypeSpace)` (lines 141-145). -/
def EmitLoadDalvikReg_shorty (ext : Externals RegPtr JType JTypeSpace Value Heap IntrinsicId)
    (self : DexLang RegPtr Heap) (reg_idx : Nat) (shorty : Char) (space : JTypeSpace) :
    Except Fault (Value × DexLang RegPtr Heap) :=
  match dcheckAllocated ext.kEnableDChecks self.regs_ reg_idx with
  | .error e => .error e
  | .ok _ => EmitLoadDalvikReg ext self reg_idx (ext.GetJTypeFromShorty shorty) space

/-- Member `DexLang::EmitStoreDalvikReg(unsigned, JType, JTypeSpace, llvm::Value*)`
(lines 147-151). -/
def EmitStoreDalvikReg (ext : Externals RegPtr JType JTypeSpace Value Heap IntrinsicId)
    (self : DexLang RegPtr Heap) (reg_idx : Nat) (jty : JType) (space : JTypeSpace)
    (new_value : Value) : Except Fault (DexLang RegPtr Heap) :=
  match self.regs_[reg_idx]? with
  | some (some reg) => .ok { self with heap := ext.SetValue reg jty space new_value self.heap }
  | _ => .error .invalidAccess

/-- Member `DexLang::EmitStoreDalvikReg(unsigned, char, JTypeSpace, llvm::Value*)`
(lines 153-157). -/
def EmitStoreDalvikReg_shorty (ext : Externals RegPtr JType JTypeSpace Value Heap IntrinsicId)
    (self : DexLang RegPtr Heap) (reg_idx : Nat) (shorty : Char) (space : JTypeSpace)
    (new_value : Value) : Except Fault (DexLang RegPtr Heap) :=
  EmitStoreDalvikReg ext self reg_idx (ext.GetJTypeFromShorty shorty) space new_value

/-! ### The fixed-arity intrinsic wrappers (lines 291-324) -/

/-- Member `DexLang::EmitInvokeIntrinsic2`. -/
def EmitInvokeIntrinsic2 (ext : Externals RegPtr JType JTypeSpace Value Heap IntrinsicId)
    (self : DexLang RegPtr Heap) (dex_pc : Nat) (intr_id : IntrinsicId)
    (arg1 arg2 : Value) : Except Fault (Value × DexLang RegPtr Heap) :=
  let args := [arg1, arg2]
  ext.EmitInvokeIntrinsic dex_pc intr_id args self

/-- Member `DexLang::EmitInvokeIntrinsic3`. -/
def EmitInvokeIntrinsic3 (ext : Externals RegPtr JType JTypeSpace Value Heap IntrinsicId)
    (self : DexLang RegPtr Heap) (dex_pc : Nat) (intr_id : IntrinsicId)
    (arg1 arg2 arg3 : Value) : Except Fault (Value × DexLang RegPtr Heap) :=
  let args := [arg1, arg2, arg3]
  ext.EmitInvokeIntrinsic dex_pc intr_id args self

/-- Member `DexLang::EmitInvokeIntrinsic4`. -/
def EmitInvokeIntrinsic4 (ext : Externals RegPtr JType JTypeSpace Value Heap IntrinsicId)
    (self : DexLang RegPtr Heap) (dex_pc : Nat) (intr_id : IntrinsicId)
    (arg1 arg2 arg3 arg4 : Value) : Except Fault (Value × DexLang RegPtr Heap) :=
  let args := [arg1, arg2, arg3, arg4]
  ext.EmitInvokeIntrinsic dex_pc intr_id args self

/-- Member `DexLang::EmitInvokeIntrinsic5`. -/
def EmitInvokeIntrinsic5 (ext : Externals RegPtr JType JTypeSpace Value Heap IntrinsicId)
    (self : DexLang RegPtr Heap) (dex_pc : Nat) (intr_id : IntrinsicId)
    (arg1 arg2 arg3 arg4 arg5 : Value) : Except Fault (Value × DexLang RegPtr Heap) :=
  let args := [arg1, arg2, arg3, arg4, arg5]
  ext.EmitInvokeIntrinsic dex_pc intr_id args self

end Helpers

end DexLang

/-! ## The register slot and its allocation, from the specification -/

/-- Modelled from the spec: the state of one `DalvikReg` object (class
`DalvikReg` of dalvik_reg.h is not among the sources). Section 3, "Register
Slot": the slot holds the value last written, with the type tag and the type
space it was written in; it holds nothing before the first write. -/
structure DalvikReg (JType JTypeSpace Value : Type) where
  written : Option (JType × JTypeSpace × Value)

/-- Modelled from the spec: what section 3 leaves open about a register slot.
`convert` is the "representation conversion appropriate to that space" applied
when a read asks for another representation than the last write,
`undefinedValue` is what a read before any write yields, and `storage` is the
IR value that stands for the storage `allocate` materializes at an address. -/
structure SlotModel (JType JTypeSpace Value : Type) where
  convert : JType → JTypeSpace → Value → JType → JTypeSpace → Value
  undefinedValue : JType → JTypeSpace → Value
  storage : JType → Nat → Value

/-- The `DalvikReg` objects of a session by address, and the first address not
yet handed out. -/
structure RegHeap (JType JTypeSpace Value : Type) where
  objects : Nat → DalvikReg JType JTypeSpace Value
  next : Nat

section SpecModel

variable {JType JTypeSpace Value IntrinsicId : Type}

/-- Modelled from the spec: `DalvikReg::GetValue` (dalvik_reg.h). Section 3: a
read in the representation of the last write yields the value written; "reading
in a space different from the last write produces a representation
conversion". -/
def DalvikReg.GetValue [DecidableEq JType] [DecidableEq JTypeSpace]
    (m : SlotModel JType JTypeSpace Value) (self : DalvikReg JType JTypeSpace Value)
    (jty : JType) (space : JTypeSpace) : Value :=
  match self.written with
  | none => m.undefinedValue jty space
  | some (wjty, wspace, v) =>
    if wjty = jty ∧ wspace = space then v else m.convert wjty wspace v jty space

/-- Modelled from the spec: `DalvikReg::SetValue` (dalvik_reg.h). Section 3:
a write establishes the value of the slot in the given representation. -/
def DalvikReg.SetValue (_self : DalvikReg JType JTypeSpace Value)
    (jty : JType) (space : JTypeSpace) (new_value : Value) :
    DalvikReg JType JTypeSpace Value :=
  { written := some (jty, space, new_value) }

/-- The externals of `dex_lang.h` with `GetValue` and `SetValue` taken from the
register-slot model above; the other externals are those of `ext`. -/
def withSlotModel [DecidableEq JType] [DecidableEq JTypeSpace]
    (m : SlotModel JType JTypeSpace Value)
    (ext : Externals Nat JType JTypeSpace Value (RegHeap JType JTypeSpace Value) IntrinsicId) :
    Externals Nat JType JTypeSpace Value (RegHeap JType JTypeSpace Value) IntrinsicId :=
  { ext with
    GetValue := fun reg jty space heap => ((heap.objects reg).GetValue m jty space, heap)
    SetValue := fun reg jty space new_value heap =>
      { heap with
        objects := Function.update heap.objects reg
          ((heap.objects reg).SetValue jty space new_value) } }

/-- Modelled from the spec: the body of `DexLang::AllocateDalvikReg` (declared at
line 97, defined in `dex_lang.cc`). Section 4.3: it "materializes storage for a
register the first time it is referenced; re-allocating an already-allocated
index is an error (`DuplicateRegisterAllocation`)". An index outside the
fixed-size register bank, about which the specification is silent, is
rejected as `std::vector::at` rejects it. -/
def DexLang.AllocateDalvikReg (m : SlotModel JType JTypeSpace Value)
    (self : DexLang Nat (RegHeap JType JTypeSpace Value)) (jty : JType) (reg_idx : Nat) :
    Except Fault (Value × DexLang Nat (RegHeap JType JTypeSpace Value)) :=
  match self.regs_[reg_idx]? with
  | none => .error .outOfRange
  | some (some _) => .error .duplicateRegisterAllocation
  | some none =>
    let addr := self.heap.next
    .ok (m.storage jty addr,
      { regs_ := self.regs_.set reg_idx (some addr)
        heap := { objects := Function.update self.heap.objects addr { written := none }
                  next := addr + 1 } })

end SpecModel

/-! ## A small concrete instance -/

namespace Sample

/-- Sample slot model over natural numbers. -/
def slotModel : SlotModel Nat Nat Nat where
  convert := fun _ _ v jty space => v + jty + space
  undefinedValue := fun _ _ => 0
  storage := fun _ addr => addr

/-- Sample externals over natural numbers, with `DCHECK` enabled. -/
def externals : Externals Nat Nat Nat Nat Nat Nat where
  kEnableDChecks := true
  GetJTypeFromShorty := fun c => c.toNat
  GetValue := fun reg jty space heap => (reg + jty + space + heap, heap + 1)
  SetValue := fun reg _ _ new_value heap => heap + reg + new_value
  EmitInvokeIntrinsic := fun dex_pc intr_id args self => .ok (dex_pc + intr_id + args.sum, self)

/-- Sample externals for sessions whose registers follow the slot model. -/
def slotExternals : Externals Nat Nat Nat Nat (RegHeap Nat Nat Nat) Nat where
  kEnableDChecks := true
  GetJTypeFromShorty := fun c => c.toNat
  GetValue := fun _ _ _ heap => (0, heap)
  SetValue := fun _ _ _ _ heap => heap
  EmitInvokeIntrinsic := fun _ _ _ self => .ok (0, self)

/-- A session with three registers, none allocated yet. -/
def freshSession : DexLang Nat (RegHeap Nat Nat Nat) where
  regs_ := [none, none, none]
  heap := { objects := fun _ => { written := none }, next := 0 }

/-- The fresh session after register 1 was allocated at address 0. -/
def allocatedSession : DexLang Nat (RegHeap Nat Nat Nat) where
  regs_ := [none, some 0, none]
  heap := { objects := Function.update freshSession.heap.objects 0 { written := none }
            next := 1 }

/-- A session with two registers, the second one allocated at address 7. -/
def session : DexLang Nat Nat where
  regs_ := [none, some 7]
  heap := 0

/-- A live context at exactly the 30 MiB budget. -/
def contextAtBudget : Context := { module_ := some 0, intrinsic_helper_ := some 0,
                                   ref_count_ := 1, mem_usage_ := 31457280 }

/-- A live context whose reference count is `INT32_MAX`. -/
def contextAtMaxCount : Context := { module_ := some 0, intrinsic_helper_ := some 0,
                                     ref_count_ := 2147483647, mem_usage_ := 0 }

/-- A live context whose reference count is `INT32_MIN`. -/
def contextAtMinCount : Context := { module_ := some 0, intrinsic_helper_ := some 0,
                                     ref_count_ := -2147483648, mem_usage_ := 0 }

/-- A live context one byte over the 30 MiB budget. -/
def contextOverBudget : Context := { module_ := some 0, intrinsic_helper_ := some 0,
                                     ref_count_ := 1, mem_usage_ := 31457281 }

end Sample

/-! ## Lemmas on 32-bit arithmetic -/

theorem wrapInt32_of_isInt32 (x : Int) (h : IsInt32 x) : wrapInt32 x = x := by
  unfold IsInt32 INT32_MIN INT32_MAX at h
  unfold wrapInt32
  omega

theorem isInt32_wrapInt32 (x : Int) : IsInt32 (wrapInt32 x) := by
  unfold IsInt32 INT32_MIN INT32_MAX wrapInt32
  omega

theorem shlInt32_30_20 : shlInt32 30 20 = 31457280 := by
  decide

namespace Context

theorem isMemUsageThresholdReached_iff (c : Context) :
    c.IsMemUsageThresholdReached = true ↔ 31457280 < c.mem_usage_ := by
  simp [IsMemUsageThresholdReached, shlInt32_30_20]

theorem isMemUsageThresholdReached_eq_false_iff (c : Context) :
    c.IsMemUsageThresholdReached = false ↔ c.mem_usage_ ≤ 31457280 := by
  simp [IsMemUsageThresholdReached, shlInt32_30_20]

theorem addMemUsageApproximation_reached (c : Context) (amount : Nat)
    (hreached : c.IsMemUsageThresholdReached = true)
    (hfit : c.mem_usage_ + (amount : Int) ≤ INT32_MAX) :
    (c.AddMemUsageApproximation amount).IsMemUsageThresholdReached = true ∧
      (c.AddMemUsageApproximation amount).mem_usage_ = c.mem_usage_ + (amount : Int) := by
  rw [isMemUsageThresholdReached_iff] at hreached
  have hwrap : wrapInt32 (c.mem_usage_ + (amount : Int)) = c.mem_usage_ + (amount : Int) := by
    apply wrapInt32_of_isInt32
    unfold INT32_MAX at hfit
    unfold IsInt32 INT32_MIN INT32_MAX
    omega
  refine ⟨?_, hwrap⟩
  rw [isMemUsageThresholdReached_iff]
  show 31457280 < wrapInt32 (c.mem_usage_ + (amount : Int))
  rw [hwrap]
  omega

theorem recordAll_reached (usages : List Nat) :
    ∀ c : Context, c.IsMemUsageThresholdReached = true →
      c.mem_usage_ + ((usages.sum : Nat) : Int) ≤ INT32_MAX →
      ∀ k, (c.recordAll (usages.take k)).IsMemUsageThresholdReached = true := by
  induction usages with
  | nil => intro c hreached _ k; simpa [recordAll] using hreached
  | cons a rest ih =>
    intro c hreached hfit k
    cases k with
    | zero => simpa [recordAll] using hreached
    | succ k =>
      have hsum : ((a :: rest).sum : Nat) = a + rest.sum := by simp
      rw [hsum, Nat.cast_add] at hfit
      have hstep := addMemUsageApproximation_reached c a hreached (by omega)
      have := ih (c.AddMemUsageApproximation a) hstep.1 (by rw [hstep.2]; omega) k
      simpa [recordAll] using this

end Context

/-! ## Lemmas on the reference count -/

namespace Context

theorem incRef_isLive (c : Context) : c.IncRef.isLive = c.isLive := rfl

theorem decRef_ref_count (c : Context) :
    c.DecRef.ref_count_ = wrapInt32 (c.ref_count_ - 1) := by
  unfold DecRef
  simp only
  split <;> rfl

theorem decRef_mem_usage (c : Context) : c.DecRef.mem_usage_ = c.mem_usage_ := by
  unfold DecRef
  simp only
  split <;> rfl

theorem decRef_isLive_eq_false_iff (c : Context) (hlive : c.isLive = true) :
    c.DecRef.isLive = false ↔ c.DecRef.ref_count_ = 0 := by
  rw [decRef_ref_count]
  unfold DecRef
  simp only
  split
  · next h => simp [h, destroy, isLive]
  · next h =>
    have : isLive { c with ref_count_ := wrapInt32 (c.ref_count_ - 1) } = true := hlive
    simp [h, this]

theorem call_dead (c : Context) (x : RefCall) (hdead : c.isLive = false) :
    (c.call x).isLive = false := by
  cases x with
  | incRef => simpa [call, incRef_isLive] using hdead
  | decRef =>
    have h1 : isLive { c with ref_count_ := wrapInt32 (c.ref_count_ - 1) } = false := hdead
    have h2 : isLive (destroy { c with ref_count_ := wrapInt32 (c.ref_count_ - 1) }) = false := rfl
    show c.DecRef.isLive = false
    unfold DecRef
    simp only
    split
    · exact h2
    · exact h1

theorem run_dead (calls : List RefCall) :
    ∀ c : Context, c.isLive = false → (c.run calls).isLive = false := by
  induction calls with
  | nil => intro c h; simpa [run] using h
  | cons x rest ih =>
    intro c h
    have := ih (c.call x) (call_dead c x h)
    simpa [run] using this

theorem run_cons (c : Context) (x : RefCall) (rest : List RefCall) :
    c.run (x :: rest) = (c.call x).run rest := rfl

theorem run_isLive_eq_false_iff (calls : List RefCall) :
    ∀ c : Context, c.isLive = true →
      ((c.run calls).isLive = false ↔
        ∃ pre post, calls = pre ++ RefCall.decRef :: post ∧
          (c.run pre).isLive = true ∧ (c.run pre).DecRef.ref_count_ = 0) := by
  induction calls with
  | nil =>
    intro c hlive
    constructor
    · intro h
      have : c.isLive = false := h
      rw [hlive] at this
      cases this
    · rintro ⟨pre, post, h, -⟩
      cases pre <;> cases h
  | cons x rest ih =>
    intro c hlive
    rw [run_cons]
    cases hx : (c.call x).isLive with
    | true =>
      rw [ih (c.call x) hx]
      constructor
      · rintro ⟨pre, post, hcalls, hpre, hzero⟩
        exact ⟨x :: pre, post, by simp [hcalls], by simpa [run_cons] using hpre,
          by simpa [run_cons] using hzero⟩
      · rintro ⟨pre, post, hcalls, hpre, hzero⟩
        cases pre with
        | nil =>
          simp only [List.nil_append, List.cons.injEq] at hcalls
          obtain ⟨rfl, -⟩ := hcalls
          have hdead : c.DecRef.isLive = false :=
            (decRef_isLive_eq_false_iff c hlive).2 hzero
          have hx2 : c.DecRef.isLive = true := hx
          rw [hdead] at hx2
          cases hx2
        | cons y pre =>
          simp only [List.cons_append, List.cons.injEq] at hcalls
          obtain ⟨rfl, rfl⟩ := hcalls
          exact ⟨pre, post, rfl, by simpa [run_cons] using hpre,
            by simpa [run_cons] using hzero⟩
    | false =>
      constructor
      · intro _
        cases x with
        | incRef =>
          have : c.IncRef.isLive = false := hx
          rw [incRef_isLive, hlive] at this
          cases this
        | decRef =>
          exact ⟨[], rest, rfl, hlive, (decRef_isLive_eq_false_iff c hlive).1 hx⟩
      · intro _
        exact run_dead rest (c.call x) hx

theorem decRef_pair_of_dead (c : Context) (hlive : c.isLive = true)
    (hdead : c.DecRef.isLive = false) :
    c.DecRef.module_ = none ∧ c.DecRef.intrinsic_helper_ = none := by
  have hzero := (decRef_isLive_eq_false_iff c hlive).1 hdead
  rw [decRef_ref_count] at hzero
  unfold DecRef
  simp only
  rw [if_pos hzero]
  exact ⟨rfl, rfl⟩

theorem decRef_pair_of_nonzero (c : Context) (hnonzero : c.DecRef.ref_count_ ≠ 0) :
    c.DecRef.module_ = c.module_ ∧ c.DecRef.intrinsic_helper_ = c.intrinsic_helper_ := by
  rw [decRef_ref_count] at hnonzero
  unfold DecRef
  simp only
  rw [if_neg hnonzero]
  exact ⟨rfl, rfl⟩

theorem call_pair_released (c : Context) (x : RefCall)
    (h : c.module_ = none ∧ c.intrinsic_helper_ = none) :
    (c.call x).module_ = none ∧ (c.call x).intrinsic_helper_ = none := by
  cases x with
  | incRef => exact h
  | decRef =>
    show c.DecRef.module_ = none ∧ c.DecRef.intrinsic_helper_ = none
    unfold DecRef
    simp only
    split
    · exact ⟨rfl, rfl⟩
    · exact h

theorem run_pair_released (calls : List RefCall) :
    ∀ c : Context, (c.module_ = none ∧ c.intrinsic_helper_ = none) →
      (c.run calls).module_ = none ∧ (c.run calls).intrinsic_helper_ = none := by
  induction calls with
  | nil => intro c h; exact h
  | cons x rest ih =>
    intro c h
    rw [run_cons]
    exact ih (c.call x) (call_pair_released c x h)

theorem run_pair_of_dead (calls : List RefCall) :
    ∀ c : Context, c.isLive = true → (c.run calls).isLive = false →
      (c.run calls).module_ = none ∧ (c.run calls).intrinsic_helper_ = none := by
  induction calls with
  | nil =>
    intro c hlive hdead
    have : c.isLive = false := hdead
    rw [hlive] at this
    cases this
  | cons x rest ih =>
    intro c hlive hdead
    rw [run_cons] at hdead ⊢
    cases hx : (c.call x).isLive with
    | true => exact ih (c.call x) hx hdead
    | false =>
      apply run_pair_released
      cases x with
      | incRef =>
        have : c.IncRef.isLive = false := hx
        rw [incRef_isLive, hlive] at this
        cases this
      | decRef => exact decRef_pair_of_dead c hlive hx

theorem isLive_eq_false_of_pair (c : Context)
    (h : c.module_ = none ∧ c.intrinsic_helper_ = none) : c.isLive = false := by
  unfold isLive
  rw [h.1]
  rfl

end Context

/-! ## Lemmas on the register helpers -/

namespace DexLang

section HelperLemmas

variable {RegPtr JType JTypeSpace Value Heap IntrinsicId : Type}

theorem dcheckAllocated_of_allocated (kEnableDChecks : Bool) (regs_ : List (Option RegPtr))
    (reg_idx : Nat) (reg : RegPtr) (h : regs_[reg_idx]? = some (some reg)) :
    dcheckAllocated kEnableDChecks regs_ reg_idx = .ok () := by
  unfold dcheckAllocated
  cases kEnableDChecks <;> simp [h]

theorem emitLoadDalvikReg_allocated_eq
    (ext : Externals RegPtr JType JTypeSpace Value Heap IntrinsicId)
    (self : DexLang RegPtr Heap) (reg_idx : Nat) (reg : RegPtr) (jty : JType)
    (space : JTypeSpace) (h : self.regs_[reg_idx]? = some (some reg)) :
    EmitLoadDalvikReg ext self reg_idx jty space =
      .ok ((ext.GetValue reg jty space self.heap).1,
        { self with heap := (ext.GetValue reg jty space self.heap).2 }) := by
  unfold EmitLoadDalvikReg
  rw [dcheckAllocated_of_allocated ext.kEnableDChecks self.regs_ reg_idx reg h]
  simp [h]

end HelperLemmas

end DexLang

/-! ## The memory-usage threshold -/

namespace Context

/-- C1 (as stated, refuted): at a usage of exactly 30 MiB = 31457280 bytes,
which is `>= 30 MiB`, `IsMemUsageThresholdReached` returns `false`. -/
theorem thresholdReached_false_at_30MiB :
    Sample.contextAtBudget.mem_usage_ ≥ 31457280 ∧
      Sample.contextAtBudget.IsMemUsageThresholdReached = false := by
  decide

/-- C1 (amended): `IsMemUsageThresholdReached` returns `false` when the usage
is below 30 MiB (31457280 bytes), `false` when it is exactly 30 MiB, and `true`
when it is above 30 MiB. -/
theorem thresholdReached_below_at_above (c : Context) :
    (c.mem_usage_ < 31457280 → c.IsMemUsageThresholdReached = false) ∧
      (c.mem_usage_ = 31457280 → c.IsMemUsageThresholdReached = false) ∧
      (c.mem_usage_ > 31457280 → c.IsMemUsageThresholdReached = true) := by
  refine ⟨fun h => ?_, fun h => ?_, fun h => ?_⟩
  · rw [isMemUsageThresholdReached_eq_false_iff]; omega
  · rw [isMemUsageThresholdReached_eq_false_iff]; omega
  · rw [isMemUsageThresholdReached_iff]; omega

/-- C2: for every value of `mem_usage_`, `IsMemUsageThresholdReached` returns
`true` if and only if the value strictly exceeds 31457280, and the constant
`30 << 20` is 31457280: the product `30 * 2^20` is an `int32_t` value, so the
shift does not overflow. -/
theorem thresholdReached_iff_exceeds_budget (c : Context) :
    (c.IsMemUsageThresholdReached = true ↔ c.mem_usage_ > 31457280) ∧
      shlInt32 30 20 = 31457280 ∧
      (30 : Int) * 2 ^ 20 = 31457280 ∧
      IsInt32 ((30 : Int) * 2 ^ 20) := by
  refine ⟨?_, by decide, by decide, by decide⟩
  simp [IsMemUsageThresholdReached, shlInt32_30_20]

/-- C3 (as stated, refuted): with the counter at 31457281 the threshold is
reported reached; after recording 2116026367 more bytes the 32-bit sum has
wrapped to -2147483648 and the threshold is no longer reported reached. -/
theorem thresholdReached_lost_on_wrap :
    IsInt32 Sample.contextOverBudget.mem_usage_ ∧
      Sample.contextOverBudget.IsMemUsageThresholdReached = true ∧
      (Sample.contextOverBudget.AddMemUsageApproximation 2116026367).mem_usage_
        = -2147483648 ∧
      (Sample.contextOverBudget.AddMemUsageApproximation
        2116026367).IsMemUsageThresholdReached = false := by
  decide

/-- C3 (amended): if the threshold is reported reached and the counter plus the
amounts recorded from then on stays within `INT32_MAX`, the threshold is still
reported reached after the next call of `AddMemUsageApproximation`, and after
every later recording of the sequence. -/
theorem thresholdReached_kept_without_wrap (c : Context) (amount : Nat) (later : List Nat)
    (hreached : c.IsMemUsageThresholdReached = true)
    (hfit : c.mem_usage_ + (amount : Int) + ((later.sum : Nat) : Int) ≤ INT32_MAX) :
    (c.AddMemUsageApproximation amount).IsMemUsageThresholdReached = true ∧
      ∀ k, ((c.AddMemUsageApproximation amount).recordAll
        (later.take k)).IsMemUsageThresholdReached = true := by
  have hstep := addMemUsageApproximation_reached c amount hreached (by omega)
  exact ⟨hstep.1,
    recordAll_reached later (c.AddMemUsageApproximation amount) hstep.1 (by rw [hstep.2]; exact hfit)⟩

/-- Witness of C3 (amended): from 31457281 bytes, recordings of 1000, 2000 and
3000 bytes. -/
theorem thresholdReached_kept_without_wrap_witness :
    Sample.contextOverBudget.IsMemUsageThresholdReached = true ∧
      Sample.contextOverBudget.mem_usage_ + ((1000 : Nat) : Int)
        + (([2000, 3000].sum : Nat) : Int) ≤ INT32_MAX ∧
      ((Sample.contextOverBudget.AddMemUsageApproximation 1000).IsMemUsageThresholdReached = true ∧
        ∀ k, ((Sample.contextOverBudget.AddMemUsageApproximation 1000).recordAll
          ([2000, 3000].take k)).IsMemUsageThresholdReached = true) :=
  ⟨by decide, by decide,
    thresholdReached_kept_without_wrap Sample.contextOverBudget 1000 [2000, 3000]
      (by decide) (by decide)⟩

/-! ## The reference count -/

/-- C8 (as stated, refuted): on a live context whose count is `INT32_MAX`,
`IncRef` leaves the count at `INT32_MIN`, not one higher; on a live context
whose count is `INT32_MIN`, `DecRef` leaves it at `INT32_MAX`, not one lower. -/
theorem refcount_wraps_at_int32_bounds :
    Sample.contextAtMaxCount.isLive = true ∧
      IsInt32 Sample.contextAtMaxCount.ref_count_ ∧
      Sample.contextAtMaxCount.IncRef.ref_count_ = -2147483648 ∧
      Sample.contextAtMaxCount.IncRef.ref_count_ ≠ Sample.contextAtMaxCount.ref_count_ + 1 ∧
      Sample.contextAtMinCount.isLive = true ∧
      IsInt32 Sample.contextAtMinCount.ref_count_ ∧
      Sample.contextAtMinCount.DecRef.ref_count_ = 2147483647 ∧
      Sample.contextAtMinCount.DecRef.ref_count_ ≠ Sample.contextAtMinCount.ref_count_ - 1 := by
  decide

/-- C8 (amended): on a live context whose count is an `int32_t` value,
`IncRef` raises `ref_count_` by exactly one when the count is below
`INT32_MAX`, keeps the module, the intrinsic helper and the usage counter, and
so returns the same context, which it never destroys. `DecRef` lowers
`ref_count_` by exactly one when the count is above `INT32_MIN` and keeps the
usage counter. `DecRef` releases both the module and the intrinsic helper
exactly when the count it leaves is zero, that is exactly when the count was
one; when the count it leaves is not zero it keeps both. For every sequence of
calls, both the module and the intrinsic helper end up released exactly when
some `DecRef` of the sequence, made on the still live context, left the count
at zero. -/
theorem refcount_lifecycle (c : Context) (hlive : c.isLive = true)
    (hcount : IsInt32 c.ref_count_) :
    (c.ref_count_ < INT32_MAX → c.IncRef.ref_count_ = c.ref_count_ + 1) ∧
      (c.IncRef.module_ = c.module_ ∧ c.IncRef.intrinsic_helper_ = c.intrinsic_helper_ ∧
        c.IncRef.mem_usage_ = c.mem_usage_) ∧
      c.IncRef.isLive = true ∧
      (INT32_MIN < c.ref_count_ → c.DecRef.ref_count_ = c.ref_count_ - 1) ∧
      c.DecRef.mem_usage_ = c.mem_usage_ ∧
      ((c.DecRef.module_ = none ∧ c.DecRef.intrinsic_helper_ = none) ↔
        c.DecRef.ref_count_ = 0) ∧
      ((c.DecRef.module_ = none ∧ c.DecRef.intrinsic_helper_ = none) ↔ c.ref_count_ = 1) ∧
      (c.DecRef.ref_count_ ≠ 0 →
        c.DecRef.module_ = c.module_ ∧ c.DecRef.intrinsic_helper_ = c.intrinsic_helper_) ∧
      (∀ calls : List RefCall,
        ((c.run calls).module_ = none ∧ (c.run calls).intrinsic_helper_ = none) ↔
          ∃ pre post, calls = pre ++ RefCall.decRef :: post ∧
            (c.run pre).isLive = true ∧ (c.run pre).DecRef.ref_count_ = 0) := by
  have hinc : c.ref_count_ < INT32_MAX → wrapInt32 (c.ref_count_ + 1) = c.ref_count_ + 1 := by
    intro h
    apply wrapInt32_of_isInt32
    unfold IsInt32 INT32_MIN INT32_MAX at *
    omega
  have hdec : INT32_MIN < c.ref_count_ → wrapInt32 (c.ref_count_ - 1) = c.ref_count_ - 1 := by
    intro h
    apply wrapInt32_of_isInt32
    unfold IsInt32 INT32_MIN INT32_MAX at *
    omega
  have hzero : wrapInt32 (c.ref_count_ - 1) = 0 ↔ c.ref_count_ = 1 := by
    unfold IsInt32 INT32_MIN INT32_MAX at hcount
    unfold wrapInt32
    omega
  have hpair : (c.DecRef.module_ = none ∧ c.DecRef.intrinsic_helper_ = none) ↔
      c.DecRef.ref_count_ = 0 := by
    constructor
    · intro h
      exact (decRef_isLive_eq_false_iff c hlive).1 (isLive_eq_false_of_pair _ h)
    · intro h
      exact decRef_pair_of_dead c hlive ((decRef_isLive_eq_false_iff c hlive).2 h)
  refine ⟨hinc, ⟨rfl, rfl, rfl⟩, ?_, ?_, decRef_mem_usage c, hpair, ?_,
    decRef_pair_of_nonzero c, fun calls => ?_⟩
  · rw [incRef_isLive]; exact hlive
  · intro h; rw [decRef_ref_count]; exact hdec h
  · rw [hpair, decRef_ref_count]; exact hzero
  · rw [← run_isLive_eq_false_iff calls c hlive]
    constructor
    · intro h
      exact isLive_eq_false_of_pair _ h
    · intro h
      exact run_pair_of_dead calls c hlive h

/-- Witness of C8 (amended): the live sample context holding one reference.
`IncRef` makes the count two and keeps the pair; `DecRef` makes it zero and
releases the module and the intrinsic helper. -/
theorem refcount_lifecycle_witness :
    Sample.contextAtBudget.isLive = true ∧ IsInt32 Sample.contextAtBudget.ref_count_ ∧
      Sample.contextAtBudget.IncRef.ref_count_ = 2 ∧
      Sample.contextAtBudget.IncRef.module_ = some 0 ∧
      Sample.contextAtBudget.IncRef.intrinsic_helper_ = some 0 ∧
      Sample.contextAtBudget.DecRef.ref_count_ = 0 ∧
      (Sample.contextAtBudget.DecRef.module_ = none ∧
        Sample.contextAtBudget.DecRef.intrinsic_helper_ = none) ∧
      Sample.contextAtBudget.IncRef.DecRef.module_ = some 0 ∧
      Sample.contextAtBudget.IncRef.DecRef.intrinsic_helper_ = some 0 :=
  have h := refcount_lifecycle Sample.contextAtBudget (by decide) (by decide)
  ⟨by decide, by decide, h.1 (by decide), h.2.1.1, h.2.1.2.1, by decide,
    h.2.2.2.2.2.2.1.2 rfl, by decide, by decide⟩

end Context

/-! ## The register accessors -/

namespace DexLang

section Accessors

variable {RegPtr JType JTypeSpace Value Heap IntrinsicId : Type}

/-- C4: the descriptor-character form of `EmitLoadDalvikReg` gives the same
result as the explicit-tag form called with `GetJTypeFromShorty(shorty)`: the
same value and session when they return, the same fault when they do not; in
particular one fails the allocation `DCHECK` exactly when the other does. -/
theorem emitLoadDalvikReg_shorty_eq
    (ext : Externals RegPtr JType JTypeSpace Value Heap IntrinsicId)
    (self : DexLang RegPtr Heap) (reg_idx : Nat) (shorty : Char) (space : JTypeSpace) :
    EmitLoadDalvikReg_shorty ext self reg_idx shorty space =
        EmitLoadDalvikReg ext self reg_idx (ext.GetJTypeFromShorty shorty) space ∧
      (EmitLoadDalvikReg_shorty ext self reg_idx shorty space = .error .checkFailed ↔
        EmitLoadDalvikReg ext self reg_idx (ext.GetJTypeFromShorty shorty) space
          = .error .checkFailed) := by
  have h : EmitLoadDalvikReg_shorty ext self reg_idx shorty space =
      EmitLoadDalvikReg ext self reg_idx (ext.GetJTypeFromShorty shorty) space := by
    unfold EmitLoadDalvikReg_shorty EmitLoadDalvikReg
    cases dcheckAllocated ext.kEnableDChecks self.regs_ reg_idx <;> rfl
  exact ⟨h, by rw [h]⟩

/-- C5: the descriptor-character form of `EmitStoreDalvikReg` leaves the session
(register vector and everything behind it) exactly as the explicit-tag form
called with `GetJTypeFromShorty(shorty)` does, and faults exactly when it does. -/
theorem emitStoreDalvikReg_shorty_eq
    (ext : Externals RegPtr JType JTypeSpace Value Heap IntrinsicId)
    (self : DexLang RegPtr Heap) (reg_idx : Nat) (shorty : Char) (space : JTypeSpace)
    (new_value : Value) :
    EmitStoreDalvikReg_shorty ext self reg_idx shorty space new_value =
      EmitStoreDalvikReg ext self reg_idx (ext.GetJTypeFromShorty shorty) space new_value :=
  rfl

/-- C9: when `reg_idx` is within `regs_` and the slot there is not `NULL`,
`EmitLoadDalvikReg` passes its `DCHECK`, returns exactly what `GetValue(jty,
space)` of that slot returns, leaves `regs_` as it was, and ends in no fault. -/
theorem emitLoadDalvikReg_of_allocated
    (ext : Externals RegPtr JType JTypeSpace Value Heap IntrinsicId)
    (self : DexLang RegPtr Heap) (reg_idx : Nat) (reg : RegPtr) (jty : JType)
    (space : JTypeSpace) (hslot : self.regs_[reg_idx]? = some (some reg)) :
    dcheckAllocated ext.kEnableDChecks self.regs_ reg_idx = .ok () ∧
      (∃ after, EmitLoadDalvikReg ext self reg_idx jty space
          = .ok ((ext.GetValue reg jty space self.heap).1, after) ∧
        after.regs_ = self.regs_ ∧
        after.heap = (ext.GetValue reg jty space self.heap).2) ∧
      ∀ fault, EmitLoadDalvikReg ext self reg_idx jty space ≠ .error fault := by
  have h := emitLoadDalvikReg_allocated_eq ext self reg_idx reg jty space hslot
  refine ⟨dcheckAllocated_of_allocated _ _ _ reg hslot, ⟨_, h, rfl, rfl⟩, ?_⟩
  intro fault hfault
  rw [h] at hfault
  cases hfault

/-- Witness of C9: register 1 of the sample session is allocated. -/
theorem emitLoadDalvikReg_of_allocated_witness :
    Sample.session.regs_[1]? = some (some 7) ∧
      dcheckAllocated Sample.externals.kEnableDChecks Sample.session.regs_ 1 = .ok () ∧
      EmitLoadDalvikReg Sample.externals Sample.session 1 2 3
        = .ok (12, { regs_ := [none, some 7], heap := 1 }) :=
  have h := emitLoadDalvikReg_of_allocated Sample.externals Sample.session 1 7 2 3 rfl
  ⟨rfl, h.1, by
    obtain ⟨after, hload, hregs, hheap⟩ := h.2.1
    cases after
    simp only at hregs hheap
    subst hregs hheap
    exact hload⟩

/-- C10: each wrapper `EmitInvokeIntrinsicN` (N = 2, 3, 4, 5) returns exactly
what `EmitInvokeIntrinsic` returns for the same `dex_pc` and `intr_id` and
the list of its N arguments in the order given. -/
theorem emitInvokeIntrinsicN_eq
    (ext : Externals RegPtr JType JTypeSpace Value Heap IntrinsicId)
    (self : DexLang RegPtr Heap) (dex_pc : Nat) (intr_id : IntrinsicId)
    (arg1 arg2 arg3 arg4 arg5 : Value) :
    EmitInvokeIntrinsic2 ext self dex_pc intr_id arg1 arg2
        = ext.EmitInvokeIntrinsic dex_pc intr_id [arg1, arg2] self ∧
      EmitInvokeIntrinsic3 ext self dex_pc intr_id arg1 arg2 arg3
        = ext.EmitInvokeIntrinsic dex_pc intr_id [arg1, arg2, arg3] self ∧
      EmitInvokeIntrinsic4 ext self dex_pc intr_id arg1 arg2 arg3 arg4
        = ext.EmitInvokeIntrinsic dex_pc intr_id [arg1, arg2, arg3, arg4] self ∧
      EmitInvokeIntrinsic5 ext self dex_pc intr_id arg1 arg2 arg3 arg4 arg5
        = ext.EmitInvokeIntrinsic dex_pc intr_id [arg1, arg2, arg3, arg4, arg5] self :=
  ⟨rfl, rfl, rfl, rfl⟩

end Accessors

section SlotModelClaims

variable {JType JTypeSpace Value IntrinsicId : Type}

/-- C6: on an allocated register index, `EmitStoreDalvikReg(i, jty, s, v)`
returns, and `EmitLoadDalvikReg(i, jty, s)` made next on the same index, tag
and space returns the value `v`; neither call changes `regs_`. -/
theorem load_after_store [DecidableEq JType] [DecidableEq JTypeSpace]
    (m : SlotModel JType JTypeSpace Value)
    (ext : Externals Nat JType JTypeSpace Value (RegHeap JType JTypeSpace Value) IntrinsicId)
    (self : DexLang Nat (RegHeap JType JTypeSpace Value)) (reg_idx reg : Nat)
    (jty : JType) (space : JTypeSpace) (v : Value)
    (hslot : self.regs_[reg_idx]? = some (some reg)) :
    ∃ stored loaded,
      EmitStoreDalvikReg (withSlotModel m ext) self reg_idx jty space v = .ok stored ∧
      EmitLoadDalvikReg (withSlotModel m ext) stored reg_idx jty space = .ok (v, loaded) ∧
      stored.regs_ = self.regs_ ∧ loaded.regs_ = self.regs_ := by
  have hstore : EmitStoreDalvikReg (withSlotModel m ext) self reg_idx jty space v =
      .ok { self with heap := (withSlotModel m ext).SetValue reg jty space v self.heap } := by
    unfold EmitStoreDalvikReg
    simp [hslot]
  refine ⟨_, { self with heap := (withSlotModel m ext).SetValue reg jty space v self.heap },
    hstore, ?_, rfl, rfl⟩
  rw [emitLoadDalvikReg_allocated_eq (withSlotModel m ext)
    { self with heap := (withSlotModel m ext).SetValue reg jty space v self.heap }
    reg_idx reg jty space hslot]
  simp [withSlotModel, DalvikReg.GetValue, DalvikReg.SetValue]

/-- Witness of C6: register 1 of the sample session, allocated by
`AllocateDalvikReg`, is written with 42 and read back. -/
theorem load_after_store_witness :
    AllocateDalvikReg Sample.slotModel Sample.freshSession 5 1
        = .ok (0, Sample.allocatedSession) ∧
      Sample.allocatedSession.regs_[1]? = some (some 0) ∧
      ∃ stored loaded,
        EmitStoreDalvikReg (withSlotModel Sample.slotModel Sample.slotExternals)
          Sample.allocatedSession 1 5 2 42 = .ok stored ∧
        EmitLoadDalvikReg (withSlotModel Sample.slotModel Sample.slotExternals)
          stored 1 5 2 = .ok (42, loaded) ∧
        stored.regs_ = Sample.allocatedSession.regs_ ∧
        loaded.regs_ = Sample.allocatedSession.regs_ :=
  ⟨rfl, rfl, load_after_store Sample.slotModel Sample.slotExternals
    Sample.allocatedSession 1 0 5 2 42 rfl⟩

/-- C7: if `AllocateDalvikReg` for index `i` has returned, a second
`AllocateDalvikReg` for the same `i` (with any type tag) fails with
`DuplicateRegisterAllocation`: it returns no storage and no new session, so the
slot of `regs_` set by the first call stays in place. -/
theorem allocate_twice_fails (m : SlotModel JType JTypeSpace Value)
    (self : DexLang Nat (RegHeap JType JTypeSpace Value)) (jty jty2 : JType) (reg_idx : Nat)
    (first : Value × DexLang Nat (RegHeap JType JTypeSpace Value))
    (hfirst : AllocateDalvikReg m self jty reg_idx = .ok first) :
    AllocateDalvikReg m first.2 jty2 reg_idx = .error .duplicateRegisterAllocation ∧
      first.2.regs_[reg_idx]? = some (some self.heap.next) := by
  unfold AllocateDalvikReg at hfirst
  split at hfirst
  · cases hfirst
  · cases hfirst
  · next hnone =>
    have hlt : reg_idx < self.regs_.length := by
      rcases Nat.lt_or_ge reg_idx self.regs_.length with h | h
      · exact h
      · rw [List.getElem?_eq_none h] at hnone
        cases hnone
    simp only [Except.ok.injEq] at hfirst
    subst hfirst
    have hget : (self.regs_.set reg_idx (some self.heap.next))[reg_idx]?
        = some (some self.heap.next) := by
      simp [hlt]
    refine ⟨?_, hget⟩
    unfold AllocateDalvikReg
    simp only [hget]

/-- Witness of C7: register 1 of a fresh session is allocated twice. -/
theorem allocate_twice_fails_witness :
    ∃ first, AllocateDalvikReg Sample.slotModel Sample.freshSession 5 1 = .ok first ∧
      first.2.regs_ = [none, some 0, none] ∧
      AllocateDalvikReg Sample.slotModel first.2 6 1 = .error .duplicateRegisterAllocation :=
  ⟨_, rfl, rfl, (allocate_twice_fails Sample.slotModel Sample.freshSession 5 6 1 _ rfl).1⟩

end SlotModelClaims

end DexLang

end Greenland
